import Mathlib

/-!
Shallow embedding of the process-invocation and error-classification layer of
the calibre-library-ts repository (src/core/exec.ts, src/core/errors.ts,
src/commands/add.ts), together with the historical exec layer kept in the
repository (unnamed part_002).

External effects are modelled as parameters: the child-process launcher
(`execa`) becomes a `ProcRunner` oracle mapping a binary name and argument
vector to a `ProcResult`, and the host's `JSON.parse` becomes a
`parse : String → Option T` parameter.  JavaScript truthiness on optional
strings and booleans is modelled explicitly (`strTruthy`, `boolTruthy`).
-/

namespace CalibreTs

/-- Result of running the external tool once: exit code, captured streams and
the host error message (execa's `error.message` on failure). -/
structure ProcResult where
  exitCode : Nat
  stdout : String
  stderr : String
  message : String

/-- The child-process launcher (`execa`) as an oracle: binary name and
argument vector to outcome. -/
def ProcRunner : Type := String → List String → ProcResult

/-- `CalibreOptions` from src/types/options.ts: every field is optional. -/
structure CalibreOptions where
  libraryPath : Option String := none
  calibreBin : Option String := none
  forMachine : Option Bool := none
  stream : Option Bool := none

/-- JavaScript truthiness of an optional string: `undefined` and `""` are
falsy, every other string is truthy. -/
def strTruthy : Option String → Bool
  | none => false
  | some s => s ≠ ""

/-- JavaScript truthiness of an optional boolean: `undefined` is falsy. -/
def boolTruthy : Option Bool → Bool
  | none => false
  | some b => b

/-- JavaScript `a || b` on strings: `""` is falsy. -/
def jsOrStr (a b : String) : String := if a = "" then b else a

/-- The JavaScript error values this layer produces, as a tagged union.
`calibreError` is the generic `CalibreError` class (also used for JSON-decode
failures), `bookNotFound` is `BookNotFoundError` (the id is a number or the
string sentinel), `libraryNotFound` is `LibraryNotFoundError`,
`calibreNotFound` is `CalibreNotFoundError`, and `plainError` is a bare
JavaScript `Error`, which is not one of the classified calibre cases. -/
inductive JsError where
  | calibreError (message command stderr : String)
  | bookNotFound (bookId : Sum Nat String) (command stderr : String)
  | libraryNotFound (libraryPath command stderr : String)
  | calibreNotFound (message : String)
  | plainError (message : String)
deriving DecidableEq

/-- A `JsError` is classified when it is one of the calibre error classes of
src/core/errors.ts (a case of the closed taxonomy), rather than a bare
JavaScript `Error`. -/
def JsError.isClassified : JsError → Bool
  | .calibreError _ _ _ => true
  | .bookNotFound _ _ _ => true
  | .libraryNotFound _ _ _ => true
  | .calibreNotFound _ => true
  | .plainError _ => false

/-- Argument-vector construction of `execCalibre` (src/core/exec.ts lines
19-34): the command, then `--library-path <value>` when `libraryPath` is
truthy, then `--for-machine` when `forMachine` (defaulted to `false`) holds,
then the caller's arguments. -/
def buildExecArgs (command : String) (args : List String)
    (options : CalibreOptions) : List String :=
  let execArgs := [command]
  let execArgs := if strTruthy options.libraryPath then
      execArgs ++ ["--library-path", options.libraryPath.getD ""]
    else execArgs
  let execArgs := if options.forMachine.getD false then
      execArgs ++ ["--for-machine"]
    else execArgs
  execArgs ++ args

/-- `execCalibre` (src/core/exec.ts lines 14-55).  On exit code zero it
resolves with the captured stdout; otherwise it throws a `CalibreError`
carrying the command and `stderr || stdout || "No error output available"`.
The `error instanceof Error` guard always holds for execa failures, which are
the only failures a child process can produce in this model. -/
def execCalibre (command : String) (args : List String)
    (options : CalibreOptions) (runner : ProcRunner) : Except JsError String :=
  let calibreBin := options.calibreBin.getD "calibredb"
  let r := runner calibreBin (buildExecArgs command args options)
  if r.exitCode = 0 then
    .ok r.stdout
  else
    .error (.calibreError
      ("Failed to execute calibredb " ++ command ++ ": " ++ r.message)
      command
      (jsOrStr r.stderr (jsOrStr r.stdout "No error output available")))

/-- `execCalibreJson` (src/core/exec.ts lines 66-88): forces
`forMachine := true` in the options, runs `execCalibre`, then decodes with
the host JSON parser (here the `parse` parameter); on decode failure it
throws a `CalibreError` carrying the command and the raw output. -/
def execCalibreJson {T : Type} (parse : String → Option T) (command : String)
    (args : List String) (options : CalibreOptions) (runner : ProcRunner) :
    Except JsError T :=
  let jsonOptions : CalibreOptions := { options with forMachine := some true }
  match execCalibre command args jsonOptions runner with
  | .error e => .error e
  | .ok output =>
    match parse output with
    | some v => .ok v
    | none => .error (.calibreError
        ("Failed to parse JSON output from calibredb " ++ command)
        command output)

/-- Argument-vector construction of the historical `execCalibre`
(src/unnamed/part_002 lines 14-50), which has no `forMachine` handling. -/
def buildExecArgsOld (command : String) (args : List String)
    (options : CalibreOptions) : List String :=
  let execArgs := [command]
  let execArgs := if strTruthy options.libraryPath then
      execArgs ++ ["--library-path", options.libraryPath.getD ""]
    else execArgs
  execArgs ++ args

/-- The argument vector the current `execCalibreJson` hands to the launcher:
`execCalibre` applied with `forMachine` forced to `true`. -/
def jsonArgsNew (command : String) (args : List String)
    (options : CalibreOptions) : List String :=
  buildExecArgs command args { options with forMachine := some true }

/-- The argument vector the historical `execCalibreJson`
(src/unnamed/part_002 lines 61-78) hands to the launcher: it pushes
`--for-machine` onto the end of the caller's argument list before calling
the historical `execCalibre`. -/
def jsonArgsOld (command : String) (args : List String)
    (options : CalibreOptions) : List String :=
  buildExecArgsOld command (args ++ ["--for-machine"]) options

/-- JavaScript `String.prototype.toLowerCase` (ASCII range, the only range
the matched phrases use): lower-case every character. -/
def jsToLower (s : String) : String :=
  String.mk (s.data.map Char.toLower)

/-- JavaScript `String.prototype.includes`: `pat` occurs as a contiguous
substring of `s`. -/
def hasSubstr (s pat : String) : Bool :=
  go s.data
where
  go : List Char → Bool
    | [] => pat.data.isEmpty
    | c :: rest => pat.data.isPrefixOf (c :: rest) || go rest

/-- Numeric value of a run of decimal digit characters. -/
def natOfDigits (ds : List Char) : Nat :=
  ds.foldl (fun n c => 10 * n + (c.toNat - '0'.toNat)) 0

/-- Attempt of the regular expression `id: (\d+)` at the head of the list:
the literal `id: ` followed by at least one digit; the capture is the maximal
digit run. -/
def matchIdAt : List Char → Option (List Char)
  | 'i' :: 'd' :: ':' :: ' ' :: rest =>
    let ds := rest.takeWhile Char.isDigit
    if ds.isEmpty then none else some ds
  | _ => none

/-- First (leftmost) match of `id: (\d+)` in the list, as JavaScript
`String.prototype.match` without the global flag finds it. -/
def findIdCapture : List Char → Option (List Char)
  | [] => none
  | c :: rest =>
    match matchIdAt (c :: rest) with
    | some ds => some ds
    | none => findIdCapture rest

/-- The character class `[:\s]` of the regular expression
`path[:\s]+([^\s]+)`. -/
def isColonOrSpace (c : Char) : Bool := c = ':' || c.isWhitespace

/-- Backtracking match of the tail of `[:\s]+([^\s]+)` once the mandatory
first separator character has already been consumed: greedily consume
further separator characters, and on failure backtrack so that a later
non-whitespace separator (a colon) starts the capture instead, exactly as
the backtracking regular-expression engine does.  The first separator is
consumed by the caller and can never start the capture, since `[:\s]+`
must match at least one character. -/
def sepTokAux : List Char → Option (List Char)
  | [] => none
  | c :: rest =>
    if isColonOrSpace c then
      match sepTokAux rest with
      | some tok => some tok
      | none =>
        if c.isWhitespace then none
        else some ((c :: rest).takeWhile (fun d => !d.isWhitespace))
    else
      some ((c :: rest).takeWhile (fun d => !d.isWhitespace))

/-- Attempt of `path[:\s]+([^\s]+)` at the head of the list: the literal
`path`, one or more colon/whitespace characters (the first being
mandatory), then a captured maximal run of at least one non-whitespace
character. -/
def matchPathAt : List Char → Option (List Char)
  | 'p' :: 'a' :: 't' :: 'h' :: c :: rest =>
    if isColonOrSpace c then sepTokAux rest else none
  | _ => none

/-- First (leftmost) match of `path[:\s]+([^\s]+)` in the list. -/
def findPathCapture : List Char → Option (List Char)
  | [] => none
  | c :: rest =>
    match matchPathAt (c :: rest) with
    | some tok => some tok
    | none => findPathCapture rest

set_option linter.unusedVariables false in
/-- `determineErrorType` (src/core/errors.ts, stored in the repository at
src/src/commands/remove.ts lines 176-204): lower-case the stderr text, then
test the known phrases in a fixed order — book/record not found, then
library not found, then executable missing — and fall back to the generic
`CalibreError`.  The `error` argument is received but never consulted, as in
the source. -/
def determineErrorType (error : JsError) (command : String) (stderr : String) :
    JsError :=
  let errorMessage := jsToLower stderr
  if hasSubstr errorMessage "no book with id" ||
      hasSubstr errorMessage "book not found" then
    let bookId : Sum Nat String :=
      match findIdCapture errorMessage.data with
      | some ds => .inl (natOfDigits ds)
      | none => .inr "unknown"
    .bookNotFound bookId command stderr
  else if hasSubstr errorMessage "library not found" ||
      hasSubstr errorMessage "cannot find library" then
    let libraryPath : String :=
      match findPathCapture errorMessage.data with
      | some tok => String.mk tok
      | none => "unknown"
    .libraryNotFound libraryPath command stderr
  else if hasSubstr errorMessage "command not found" ||
      hasSubstr errorMessage "calibredb: not found" then
    .calibreNotFound "calibredb executable not found"
  else
    .calibreError ("Error executing calibredb " ++ command) command stderr

/-- The characters the JavaScript `.` metacharacter does not match (no `s`
flag): line terminators. -/
def jsDot (c : Char) : Bool :=
  !(c = '\n' || c = '\r' || c = Char.ofNat 0x2028 || c = Char.ofNat 0x2029)

/-- Drop a case-insensitive literal pattern (given lower-case) from the head
of the list, returning the remainder. -/
def dropCiPat : List Char → List Char → Option (List Char)
  | [], s => some s
  | _ :: _, [] => none
  | p :: ps, c :: cs => if c.toLower = p then dropCiPat ps cs else none

/-- Attempt of the confirmation regular expression `Added book ids?: (.+)`
(case-insensitive) at the head of the list: the literal `Added book id`, an
optional `s` (tried first, as the greedy engine does), then `: `, then a
captured maximal run of at least one non-line-terminator character, taken
from the original (not case-folded) text. -/
def matchAddAt (l : List Char) : Option (List Char) :=
  match dropCiPat "added book id".data l with
  | none => none
  | some rest =>
    let afterColon : Option (List Char) :=
      match rest with
      | c1 :: ':' :: ' ' :: r => if c1.toLower = 's' then some r else none
      | _ => none
    let afterColon : Option (List Char) :=
      match afterColon with
      | some r => some r
      | none =>
        match rest with
        | ':' :: ' ' :: r => some r
        | _ => none
    match afterColon with
    | none => none
    | some r =>
      let cap := r.takeWhile jsDot
      if cap.isEmpty then none else some cap

/-- First (leftmost) match of `Added book ids?: (.+)` in the list, as
JavaScript `String.prototype.match` without the global flag finds it. -/
def findAddMatch : List Char → Option (List Char)
  | [] => none
  | c :: rest =>
    match matchAddAt (c :: rest) with
    | some cap => some cap
    | none => findAddMatch rest

/-- JavaScript `String.prototype.split(",")`: split at every comma, keeping
empty pieces. -/
def splitComma : List Char → List (List Char)
  | [] => [[]]
  | c :: rest =>
    if c = ',' then [] :: splitComma rest
    else
      match splitComma rest with
      | [] => [[c]]
      | piece :: pieces => (c :: piece) :: pieces

/-- JavaScript `String.prototype.trim`: drop whitespace from both ends. -/
def jsTrim (l : List Char) : List Char :=
  ((l.dropWhile Char.isWhitespace).reverse.dropWhile Char.isWhitespace).reverse

/-- JavaScript `parseInt(s, 10)`: skip leading whitespace, allow one sign,
then the maximal decimal-digit run; `NaN` (here `none`) when no digit is
found. -/
def parseIntJs (s : List Char) : Option Int :=
  let l := s.dropWhile Char.isWhitespace
  let digits : List Char → Option Nat := fun r =>
    let ds := r.takeWhile Char.isDigit
    if ds.isEmpty then none else some (natOfDigits ds)
  match l with
  | '-' :: r => (digits r).map (fun n => -(n : Int))
  | '+' :: r => (digits r).map (fun n => (n : Int))
  | r => (digits r).map (fun n => (n : Int))

/-- The id-extraction step of `add` (src/commands/add.ts lines 80-95): match
the confirmation pattern; when it matches, split the capture on commas, trim
each piece, drop empties, parse base-10 integers and drop `NaN`s; when it
does not match, produce the empty list. -/
def parseAddedIds (output : String) : List Int :=
  match findAddMatch output.data with
  | none => []
  | some cap =>
    ((((splitComma cap).map jsTrim).filter
      (fun s => s.length > 0)).filterMap parseIntJs)

/-- `AddOptions` from src/types/options.ts: the calibre options plus the
add-specific fields, all optional. -/
structure AddOptions extends CalibreOptions where
  automerge : Option String := none
  allowDuplicates : Option Bool := none
  recursive : Option Bool := none
  oneBookPerDirectory : Option Bool := none
  empty : Option Bool := none
  author : Option String := none
  title : Option String := none
  tags : Option (List String) := none
  series : Option String := none
  seriesIndex : Option Int := none
  isbn : Option String := none
  identifiers : Option (List String) := none
  languages : Option (List String) := none

/-- The command-specific argument list built by `add`
(src/commands/add.ts lines 15-71).  String options are guarded by JavaScript
truthiness, boolean options by their value, `tags` additionally by a
non-emptiness check, `seriesIndex` by presence only, and array options
(`identifiers`, `languages`) by presence only (arrays are always truthy).
The paths come last. -/
def buildAddArgs (options : AddOptions) (paths : List String) : List String :=
  let args : List String := []
  let args := if strTruthy options.automerge then
      args ++ ["--automerge", options.automerge.getD ""] else args
  let args := if boolTruthy options.allowDuplicates then
      args ++ ["--duplicates"] else args
  let args := if boolTruthy options.recursive then
      args ++ ["--recurse"] else args
  let args := if boolTruthy options.oneBookPerDirectory then
      args ++ ["--one-book-per-directory"] else args
  let args := if boolTruthy options.empty then args ++ ["--empty"] else args
  let args := if strTruthy options.author then
      args ++ ["--author", options.author.getD ""] else args
  let args := if strTruthy options.title then
      args ++ ["--title", options.title.getD ""] else args
  let args := match options.tags with
    | some ts => if ts.length > 0 then
        args ++ ["--tags", String.intercalate "," ts] else args
    | none => args
  let args := if strTruthy options.series then
      args ++ ["--series", options.series.getD ""] else args
  let args := match options.seriesIndex with
    | some i => args ++ ["--series-index", toString i]
    | none => args
  let args := if strTruthy options.isbn then
      args ++ ["--isbn", options.isbn.getD ""] else args
  let args := match options.identifiers with
    | some ids => ids.foldl (fun acc id => acc ++ ["--identifier", id]) args
    | none => args
  let args := match options.languages with
    | some ls => args ++ ["--languages", String.intercalate "," ls]
    | none => args
  args ++ paths

/-- Outcome of `add`: either the list of parsed identifiers, or (in
streaming mode) the child-process handle, modelled by the invocation that
created it. -/
inductive AddResult where
  | ids (l : List Int)
  | streamHandle (bin : String) (argv : List String)
deriving DecidableEq

/-- `add` (src/commands/add.ts lines 11-96): build the argument list; in
streaming mode hand back the process handle from `execCalibreStream`
(which builds the same argument vector as `execCalibre`); otherwise run
`execCalibre` and, on its success, extract the confirmed identifiers from
the captured stdout. -/
def add (paths : List String) (options : AddOptions) (runner : ProcRunner) :
    Except JsError AddResult :=
  let args := buildAddArgs options paths
  if boolTruthy options.stream then
    .ok (.streamHandle (options.calibreBin.getD "calibredb")
      (buildExecArgs "add" args options.toCalibreOptions))
  else
    match execCalibre "add" args options.toCalibreOptions runner with
    | .error e => .error e
    | .ok output => .ok (.ids (parseAddedIds output))

/-- `addEmptyBook` (src/commands/add.ts lines 119-133): when the title is
not truthy, throw a bare `Error` before anything else; otherwise delegate to
`add` with `empty` forced on and resolve with the first identifier, or
`null` when there is none. -/
def addEmptyBook (options : AddOptions) (runner : ProcRunner) :
    Except JsError (Option Int) :=
  if !strTruthy options.title then
    .error (.plainError "Title is required for an empty book")
  else
    match add [] { options with empty := some true } runner with
    | .error e => .error e
    | .ok (.ids l) => .ok l.head?
    | .ok (.streamHandle _ _) => .ok none

/-! Theorems. -/

/-- Unfolding lemma for `execCalibre`, phrased over an arbitrary process
outcome `r` so that statements need not repeat the launcher application. -/
theorem execCalibre_eq (command : String) (args : List String)
    (options : CalibreOptions) (runner : ProcRunner) (r : ProcResult)
    (hr : runner (options.calibreBin.getD "calibredb")
      (buildExecArgs command args options) = r) :
    execCalibre command args options runner =
      if r.exitCode = 0 then .ok r.stdout
      else .error (.calibreError
        ("Failed to execute calibredb " ++ command ++ ": " ++ r.message)
        command
        (jsOrStr r.stderr (jsOrStr r.stdout "No error output available"))) := by
  subst hr; rfl

/-- Every error `execCalibre` produces is one of the classified calibre
error classes. -/
theorem execCalibre_error_classified (command : String) (args : List String)
    (options : CalibreOptions) (runner : ProcRunner) (e : JsError)
    (h : execCalibre command args options runner = .error e) :
    e.isClassified = true := by
  rw [execCalibre_eq command args options runner _ rfl] at h
  split at h
  · simp at h
  · cases h; rfl

/-- Unfolding lemma for `execCalibreJson` with the forced options spelled
out. -/
theorem execCalibreJson_eq {T : Type} (parse : String → Option T)
    (command : String) (args : List String) (options : CalibreOptions)
    (runner : ProcRunner) :
    execCalibreJson parse command args options runner =
      match execCalibre command args { options with forMachine := some true }
          runner with
      | .error e => .error e
      | .ok output =>
        match parse output with
        | some v => .ok v
        | none => .error (.calibreError
            ("Failed to parse JSON output from calibredb " ++ command)
            command output) := rfl

/-- Every error `execCalibreJson` produces — a propagated process failure or
a decode failure — is one of the classified calibre error classes. -/
theorem execCalibreJson_error_classified {T : Type} (parse : String → Option T)
    (command : String) (args : List String) (options : CalibreOptions)
    (runner : ProcRunner) (e : JsError)
    (h : execCalibreJson parse command args options runner = .error e) :
    e.isClassified = true := by
  rw [execCalibreJson_eq parse command args options runner] at h
  split at h
  next e' heq =>
    cases h
    exact execCalibre_error_classified _ _ _ _ _ heq
  next output heq =>
    split at h
    next v hp => cases h
    next hp =>
      cases h
      rfl

/-- C1: for every invocation whose child process exits non-zero, and for
every JSON-decode failure, the failure value is one case of the closed
classified-error taxonomy of src/core/errors.ts — never an unclassified bare
`Error`.  The public operations (list, add, remove) all delegate to these
two entry points. -/
theorem execCalibre_failures_classified {T : Type} (parse : String → Option T)
    (command : String) (args : List String) (options : CalibreOptions)
    (runner : ProcRunner) :
    ((runner (options.calibreBin.getD "calibredb")
        (buildExecArgs command args options)).exitCode ≠ 0 →
      ∃ e, execCalibre command args options runner = .error e ∧
        e.isClassified = true) ∧
    (∀ e, execCalibreJson parse command args options runner = .error e →
      e.isClassified = true) := by
  constructor
  · intro h
    rw [execCalibre_eq command args options runner _ rfl, if_neg h]
    exact ⟨_, rfl, rfl⟩
  · intro e he
    exact execCalibreJson_error_classified parse command args options runner e he

/-- A launcher whose process always fails with stderr text. -/
def failRunner : ProcRunner := fun _ _ =>
  { exitCode := 1, stdout := "", stderr := "boom", message := "exit 1" }

/-- A launcher whose process fails with empty stderr but non-empty stdout. -/
def stdoutOnlyRunner : ProcRunner := fun _ _ =>
  { exitCode := 2, stdout := "outtext", stderr := "", message := "Command failed" }

/-- A launcher whose process succeeds with a fixed stdout text. -/
def okRunner (out : String) : ProcRunner := fun _ _ =>
  { exitCode := 0, stdout := out, stderr := "", message := "" }

/-- Witness for C1 at a concrete failing invocation. -/
theorem execCalibre_failures_classified_witness :
    ∃ e, execCalibre "remove" ["9"] {} failRunner = .error e ∧
      e.isClassified = true :=
  (execCalibre_failures_classified (fun _ => (none : Option Unit))
    "remove" ["9"] {} failRunner).1 (by decide)

/-- C3: on non-zero exit the thrown `CalibreError` carries the captured
stderr text, falling back to the stdout text when stderr is empty, and to
the fixed placeholder when both are empty. -/
theorem execCalibre_error_text_fallback (command : String) (args : List String)
    (options : CalibreOptions) (runner : ProcRunner) (r : ProcResult)
    (hr : runner (options.calibreBin.getD "calibredb")
      (buildExecArgs command args options) = r)
    (h : r.exitCode ≠ 0) :
    execCalibre command args options runner = .error (.calibreError
      ("Failed to execute calibredb " ++ command ++ ": " ++ r.message)
      command
      (if r.stderr ≠ "" then r.stderr
       else if r.stdout ≠ "" then r.stdout
       else "No error output available")) := by
  rw [execCalibre_eq command args options runner r hr, if_neg h]
  unfold jsOrStr
  by_cases h1 : r.stderr = "" <;> by_cases h2 : r.stdout = "" <;> simp [h1, h2]

/-- Witness for C3: empty stderr falls back to the stdout text. -/
theorem execCalibre_error_text_fallback_witness :
    execCalibre "add" [] {} stdoutOnlyRunner = .error (.calibreError
      "Failed to execute calibredb add: Command failed" "add" "outtext") :=
  execCalibre_error_text_fallback "add" [] {} stdoutOnlyRunner _ rfl (by decide)

/-- C10: the classification never depends on the `error` argument: two
arbitrary errors with the same command and stderr classify identically. -/
theorem determineErrorType_ignores_error_argument (e1 e2 : JsError)
    (command stderr : String) :
    determineErrorType e1 command stderr =
      determineErrorType e2 command stderr := rfl

/-- C2: a stderr text containing a book-not-found phrase (case-insensitively
`no book with id` or `book not found`) always classifies as
`BookNotFoundError` and never as the generic `CalibreError`, no matter which
other known phrases also occur in the same string — book/record phrasing is
checked first, before the library-path, executable-missing and fallback
branches. -/
theorem determineErrorType_book_phrase_priority (e : JsError)
    (command stderr : String)
    (hb : hasSubstr (jsToLower stderr) "no book with id" = true ∨
      hasSubstr (jsToLower stderr) "book not found" = true) :
    determineErrorType e command stderr = .bookNotFound
      (match findIdCapture (jsToLower stderr).data with
       | some ds => .inl (natOfDigits ds)
       | none => .inr "unknown") command stderr ∧
    (∀ m c s, determineErrorType e command stderr ≠ .calibreError m c s) := by
  have hb' : (hasSubstr (jsToLower stderr) "no book with id" ||
      hasSubstr (jsToLower stderr) "book not found") = true := by
    rcases hb with h | h <;> simp [h]
  have hres : determineErrorType e command stderr = .bookNotFound
      (match findIdCapture (jsToLower stderr).data with
       | some ds => .inl (natOfDigits ds)
       | none => .inr "unknown") command stderr := by
    simp only [determineErrorType]
    rw [if_pos hb']
  refine ⟨hres, fun m c s hne => ?_⟩
  rw [hres] at hne
  cases hne

/-- Witness for C2: stderr carrying the book phrase together with the
library-not-found and executable-missing phrases still classifies as
`BookNotFoundError` with the extracted id. -/
theorem determineErrorType_book_phrase_priority_witness :
    determineErrorType (.plainError "x") "remove"
        "No book with id: 7; library not found; calibredb: not found" =
      .bookNotFound (.inl 7) "remove"
        "No book with id: 7; library not found; calibredb: not found" :=
  ((determineErrorType_book_phrase_priority (.plainError "x") "remove"
    "No book with id: 7; library not found; calibredb: not found"
    (Or.inl (by decide))).1).trans (by decide)

/-- C7: classification is total — it always lands in exactly one classified
case — and whenever the book or library phrase matches but the best-effort
detail extraction fails, the detail is the fixed sentinel `unknown` rather
than a classification failure. -/
theorem determineErrorType_unknown_sentinel (e : JsError)
    (command stderr : String) :
    (determineErrorType e command stderr).isClassified = true ∧
    ((hasSubstr (jsToLower stderr) "no book with id" = true ∨
      hasSubstr (jsToLower stderr) "book not found" = true) →
      findIdCapture (jsToLower stderr).data = none →
      determineErrorType e command stderr =
        .bookNotFound (.inr "unknown") command stderr) ∧
    (hasSubstr (jsToLower stderr) "no book with id" = false →
      hasSubstr (jsToLower stderr) "book not found" = false →
      (hasSubstr (jsToLower stderr) "library not found" = true ∨
        hasSubstr (jsToLower stderr) "cannot find library" = true) →
      findPathCapture (jsToLower stderr).data = none →
      determineErrorType e command stderr =
        .libraryNotFound "unknown" command stderr) := by
  refine ⟨?_, ?_, ?_⟩
  · simp only [determineErrorType]
    split
    · rfl
    · split
      · rfl
      · split
        · rfl
        · rfl
  · intro hb hid
    have hb' : (hasSubstr (jsToLower stderr) "no book with id" ||
        hasSubstr (jsToLower stderr) "book not found") = true := by
      rcases hb with h | h <;> simp [h]
    simp only [determineErrorType, hid]
    rw [if_pos hb']
  · intro hb1 hb2 hl hpath
    have hbneg : ¬((hasSubstr (jsToLower stderr) "no book with id" ||
        hasSubstr (jsToLower stderr) "book not found") = true) := by
      simp [hb1, hb2]
    have hl' : (hasSubstr (jsToLower stderr) "library not found" ||
        hasSubstr (jsToLower stderr) "cannot find library") = true := by
      rcases hl with h | h <;> simp [h]
    simp only [determineErrorType, hpath]
    rw [if_neg hbneg, if_pos hl']

/-- Witness for C7: failed id extraction and failed path extraction both
substitute the `unknown` sentinel; the second input ends in `path:`, where
`[:\s]+` consumes the only colon and leaves nothing for the capture, so the
extraction fails. -/
theorem determineErrorType_unknown_sentinel_witness :
    determineErrorType (.plainError "x") "remove" "Book not found" =
      .bookNotFound (.inr "unknown") "remove" "Book not found" ∧
    determineErrorType (.plainError "x") "list" "cannot find library path:" =
      .libraryNotFound "unknown" "list" "cannot find library path:" :=
  ⟨(determineErrorType_unknown_sentinel (.plainError "x") "remove"
      "Book not found").2.1 (Or.inr (by decide)) (by decide),
   (determineErrorType_unknown_sentinel (.plainError "x") "list"
      "cannot find library path:").2.2 (by decide) (by decide)
      (Or.inr (by decide)) (by decide)⟩

/-- C4: `execCalibreJson` always hands the launcher an argument vector
containing `--for-machine`, whatever the caller's options said, and on JSON
decode failure it fails with a `CalibreError` carrying the command name and
the raw undecoded output — it never resolves. -/
theorem execCalibreJson_forces_machine_and_decode_failure {T : Type}
    (parse : String → Option T) (command : String) (args : List String)
    (options : CalibreOptions) (runner : ProcRunner) :
    "--for-machine" ∈
      buildExecArgs command args { options with forMachine := some true } ∧
    (∀ output,
      execCalibre command args { options with forMachine := some true } runner =
        .ok output →
      parse output = none →
      execCalibreJson parse command args options runner = .error (.calibreError
        ("Failed to parse JSON output from calibredb " ++ command)
        command output)) := by
  constructor
  · unfold buildExecArgs
    by_cases h1 : strTruthy ({ options with forMachine := some true} :
        CalibreOptions).libraryPath <;> simp [h1]
  · intro output hok hp
    rw [execCalibreJson_eq parse command args options runner, hok]
    simp [hp]

/-- Witness for C4 at a concrete invocation returning non-JSON text. -/
theorem execCalibreJson_forces_machine_and_decode_failure_witness :
    "--for-machine" ∈
      buildExecArgs "list" []
        { ({} : CalibreOptions) with forMachine := some true } ∧
    execCalibreJson (fun _ => (none : Option Unit)) "list" []
        ({} : CalibreOptions) (okRunner "not json") =
      .error (.calibreError "Failed to parse JSON output from calibredb list"
        "list" "not json") :=
  ⟨(execCalibreJson_forces_machine_and_decode_failure
      (fun _ => (none : Option Unit)) "list" [] {} (okRunner "not json")).1,
   (execCalibreJson_forces_machine_and_decode_failure
      (fun _ => (none : Option Unit)) "list" [] {} (okRunner "not json")).2
      "not json" rfl rfl⟩

/-- C5: a successful non-streaming `add` whose captured stdout has no line
matching the confirmation pattern resolves with the empty identifier list
rather than failing; the pattern step runs only on the success path — a
non-zero exit is already routed to a classified error before it. -/
theorem add_no_confirmation_empty_ids (paths : List String)
    (options : AddOptions) (runner : ProcRunner)
    (hs : boolTruthy options.stream = false) (r : ProcResult)
    (hr : runner (options.toCalibreOptions.calibreBin.getD "calibredb")
      (buildExecArgs "add" (buildAddArgs options paths)
        options.toCalibreOptions) = r) :
    (r.exitCode = 0 → findAddMatch r.stdout.data = none →
      add paths options runner = .ok (.ids [])) ∧
    (r.exitCode ≠ 0 → ∃ e, add paths options runner = .error e ∧
      e.isClassified = true) := by
  have hx := execCalibre_eq "add" (buildAddArgs options paths)
    options.toCalibreOptions runner r hr
  constructor
  · intro h0 hm
    simp only [add, hs, if_false, Bool.false_eq_true]
    rw [hx, if_pos h0]
    simp [parseAddedIds, hm]
  · intro hn
    simp only [add, hs, if_false, Bool.false_eq_true]
    rw [hx, if_neg hn]
    exact ⟨_, rfl, rfl⟩

/-- A launcher whose add run succeeds but prints no confirmation line (every
requested addition was skipped as a duplicate). -/
def dupSkippedRunner : ProcRunner := fun _ _ =>
  { exitCode := 0, stdout := "The following books were not added", stderr := "",
    message := "" }

/-- Witness for C5 at a concrete confirmation-free success. -/
theorem add_no_confirmation_empty_ids_witness :
    add ["b.epub"] {} dupSkippedRunner = .ok (.ids []) :=
  (add_no_confirmation_empty_ids ["b.epub"] {} dupSkippedRunner rfl _ rfl).1
    (by decide) (by decide)

/-- C8: when the title option is absent, `addEmptyBook` fails with the local
input-validation error — a bare `Error`, not one of the process-execution
error classes — and does so for every launcher, so no child process result
can influence it (none is spawned: the check precedes the `add` call). -/
theorem addEmptyBook_requires_title (options : AddOptions)
    (runner : ProcRunner) (h : options.title = none) :
    addEmptyBook options runner =
      .error (.plainError "Title is required for an empty book") ∧
    (JsError.plainError "Title is required for an empty book").isClassified =
      false := by
  constructor
  · simp [addEmptyBook, h, strTruthy]
  · rfl

/-- Witness for C8 at the empty options record. -/
theorem addEmptyBook_requires_title_witness :
    addEmptyBook {} failRunner =
      .error (.plainError "Title is required for an empty book") :=
  (addEmptyBook_requires_title {} failRunner rfl).1

/-- C6 counterexample: an options record whose `libraryPath` is present but
empty builds a vector with no `--library-path` pair — JavaScript truthiness
skips the empty string — refuting the claimed "if and only if libraryPath is
present". -/
theorem buildExecArgs_present_iff_cex :
    ({ libraryPath := some "" } : CalibreOptions).libraryPath ≠ none ∧
    buildExecArgs "list" [] { libraryPath := some "" } = ["list"] ∧
    "--library-path" ∉ buildExecArgs "list" [] { libraryPath := some "" } := by
  decide

/-- Decomposition of `buildExecArgs` into its four segments (shared
helper). -/
theorem buildExecArgs_decompose (command : String) (args : List String)
    (options : CalibreOptions) :
    buildExecArgs command args options =
      [command] ++
      (if strTruthy options.libraryPath then
        ["--library-path", options.libraryPath.getD ""] else []) ++
      (if options.forMachine.getD false then ["--for-machine"] else []) ++
      args := by
  unfold buildExecArgs
  by_cases h1 : strTruthy options.libraryPath <;>
    by_cases h2 : options.forMachine.getD false <;> simp [h1, h2]

/-- C6 amended: the built vector is exactly the command name, then the
`--library-path <value>` pair if and only if `libraryPath` is present AND
non-empty, then `--for-machine` if and only if the machine-readable option
is true, then the caller's arguments in order. -/
theorem buildExecArgs_shape (command : String) (args : List String)
    (options : CalibreOptions) :
    buildExecArgs command args options =
      [command] ++
      (if strTruthy options.libraryPath then
        ["--library-path", options.libraryPath.getD ""] else []) ++
      (if options.forMachine.getD false then ["--for-machine"] else []) ++
      args :=
  buildExecArgs_decompose command args options

/-- Analogue of `buildExecArgs_shape` for the historical exec layer, which
never injects `--for-machine`. -/
theorem buildExecArgsOld_shape (command : String) (args : List String)
    (options : CalibreOptions) :
    buildExecArgsOld command args options =
      [command] ++
      (if strTruthy options.libraryPath then
        ["--library-path", options.libraryPath.getD ""] else []) ++
      args := by
  unfold buildExecArgsOld
  by_cases h1 : strTruthy options.libraryPath <;> simp [h1]

/-- C9 counterexample: the current and the historical exec layers build
different argument vectors — the historical `execCalibre` drops the
machine-readable flag entirely, and the historical `execCalibreJson` puts
`--for-machine` after the caller's arguments instead of before them. -/
theorem exec_versions_argvector_cex :
    jsonArgsNew "list" ["--fields", "title"] {} ≠
      jsonArgsOld "list" ["--fields", "title"] {} ∧
    buildExecArgs "list" [] { forMachine := some true } ≠
      buildExecArgsOld "list" [] { forMachine := some true } := by
  decide

/-- C9 amended: the two `execCalibre` builders agree exactly when the
machine-readable option is not set (when it is set, the current vector has
one more element, the `--for-machine` the historical version never emits);
the two `execCalibreJson` builders always produce the same arguments as
multisets (each inserts `--for-machine` exactly once, the current version
before the caller's arguments and the historical one after them) and
coincide whenever — though not only when — the caller's argument list is
empty. -/
theorem exec_versions_agreement (command : String) (args : List String)
    (options : CalibreOptions) :
    (buildExecArgs command args options =
        buildExecArgsOld command args options ↔
      options.forMachine.getD false = false) ∧
    (jsonArgsNew command args options).Perm (jsonArgsOld command args options) ∧
    jsonArgsNew command [] options = jsonArgsOld command [] options := by
  refine ⟨⟨?_, ?_⟩, ?_, ?_⟩
  · intro heq
    by_contra hfm
    rw [Bool.not_eq_false] at hfm
    have hlen : (buildExecArgs command args options).length =
        (buildExecArgsOld command args options).length := by rw [heq]
    rw [buildExecArgs_decompose, buildExecArgsOld_shape] at hlen
    rw [hfm] at hlen
    simp [List.length_append] at hlen
  · intro h
    rw [buildExecArgs_decompose, buildExecArgsOld_shape, h]
    simp
  · unfold jsonArgsNew jsonArgsOld
    rw [buildExecArgs_decompose, buildExecArgsOld_shape]
    simp only [Option.getD_some, if_pos rfl, List.append_assoc]
    exact List.Perm.append_left _ (List.Perm.append_left _
      List.perm_append_comm)
  · unfold jsonArgsNew jsonArgsOld
    rw [buildExecArgs_decompose, buildExecArgsOld_shape]
    simp

/-- Witness for C9's amended statement at concrete inputs. -/
theorem exec_versions_agreement_witness :
    buildExecArgs "remove" ["5"] {} = buildExecArgsOld "remove" ["5"] {} ∧
    jsonArgsNew "list" [] { libraryPath := some "/lib" } =
      jsonArgsOld "list" [] { libraryPath := some "/lib" } :=
  ⟨(exec_versions_agreement "remove" ["5"] {}).1.mpr rfl,
   (exec_versions_agreement "list" []
      { libraryPath := some "/lib" }).2.2⟩

end CalibreTs
